import Mathlib

/-!
Shallow embedding of the core of the library-catalog management system:
the sequence allocator (src/utils/idGen.js, src/models/Counter.js), the
book copy ledger (src/controllers/bookController.js), and member creation
(src/controllers/userController.js).

Modelling conventions:
  - MongoDB documents are Lean structures; a field that may be absent from
    the stored document is an `Option`.
  - JavaScript numbers coming from forms or stored counts are `Int`
    (they can be negative; overflow is irrelevant at these magnitudes).
  - The Mongoose schema aliases `availableCopies` to the stored field
    `AvailableCopies`; per the source's own comment (bookController.js,
    lines 365-376) aliases are NOT translated inside raw query/update
    documents, so a filter or `$inc` naming `availableCopies` acts on a
    separate raw document field.  The model therefore carries both slots:
    `AvailableCopies` (the schema-backed field, which all Mongoose document
    reads and writes go through) and `availableCopies` (the raw legacy
    camelCase field touched only by the `$or` filter and `$inc` of issue).
  - `$inc` on an absent field creates it holding the increment, and a
    comparison filter such as `{f: {$gt: 0}}` does not match a document
    in which `f` is absent; both are standard MongoDB semantics.
  - The schema declares `TotalCopies` and `AvailableCopies` with
    `default: 0` (models/Book.js, lines 15-16), and Mongoose applies
    schema defaults to hydrated documents whose stored path is missing:
    every document-level read of these fields in the controllers yields a
    number — 0 when the stored field is absent — never `undefined`.  The
    `undefined` fallback branches in the controllers (lookup's
    default-to-total, issue's default-to-total, update's min-clamp for an
    undefined available) are therefore unreachable through this schema,
    and the embedded reads are `Option.getD 0` on the stored field.  Raw
    query filters and `$inc` still act on the raw stored document, where
    the field may genuinely be absent.
-/

/-! ## Sequence allocator (src/models/Counter.js, src/utils/idGen.js) -/

/-- State of the Counter collection: maps a namespace string (the `_id`
of a counter document) to its `seq` value; `none` means no counter
document exists yet for that namespace. -/
def CounterState : Type := String → Option Nat

/-- JavaScript `String(n).padStart(width, "0")`. -/
def zeroPad (width : Nat) (n : Nat) : String :=
  let s := Nat.repr n
  String.mk (List.replicate (width - s.length) '0') ++ s

/-- Embeds `getNextSequence` (src/utils/idGen.js, lines 15-23): a
`findOneAndUpdate` on `{_id: pfx}` with `{$inc: {seq: 1}}` and
`{new: true, upsert: true}`.  With upsert, a missing counter starts at 0
and the `$inc` makes the stored and returned `seq` equal to 1.  Returns
the generated identifier and the new counter state. -/
def getNextSequence (st : CounterState) (pfx : String) (width : Nat) :
    String × CounterState :=
  let seq := (st pfx).getD 0 + 1
  (pfx ++ zeroPad width seq, fun k => if k = pfx then some seq else st k)

/-- Counter state after `n` consecutive allocations in namespace `pfx`. -/
def counterAfter (st : CounterState) (pfx : String) (width : Nat) :
    Nat → CounterState
  | 0 => st
  | n + 1 => counterAfter (getNextSequence st pfx width).2 pfx width n

/-- Identifiers returned by `n` consecutive allocations in namespace
`pfx`, in order. -/
def allocTrace (st : CounterState) (pfx : String) (width : Nat) :
    Nat → List String
  | 0 => []
  | n + 1 =>
      (getNextSequence st pfx width).1 ::
        allocTrace (getNextSequence st pfx width).2 pfx width n

/-- Counter state with no counter documents at all. -/
def emptyCounters : CounterState := fun _ => none

/-! ## JavaScript string primitives, modelled over character lists -/

/-- JavaScript `s.trim()`: strip whitespace from both ends. -/
def jsTrim (s : String) : String :=
  String.mk
    (((s.toList.dropWhile Char.isWhitespace).reverse.dropWhile
        Char.isWhitespace).reverse)

/-- JavaScript `s.toLowerCase()` (the codes involved are ASCII). -/
def jsToLowerList (s : String) : List Char := s.toList.map Char.toLower

/-- Numeric value of an all-digits string, as JavaScript `Number(s)`
computes it on such a string. -/
def digitsVal (s : String) : Nat :=
  s.toList.foldl (fun a c => 10 * a + (c.toNat - '0'.toNat)) 0

/-- When `pre` is a prefix of `cs`, the remainder of `cs` after it. -/
def dropPre : List Char → List Char → Option (List Char)
  | [], cs => some cs
  | _ :: _, [] => none
  | p :: ps, c :: cs => if c == p then dropPre ps cs else none

/-- Split a character list on a separator character. -/
def splitOnChar (sep : Char) : List Char → List (List Char)
  | [] => [[]]
  | c :: cs =>
      match splitOnChar sep cs with
      | [] => [[c]]
      | g :: gs => if c == sep then [] :: g :: gs else (c :: g) :: gs

/-! ## Book documents (src/unnamed/part_000 = models/Book.js) -/

/-- Raw stored book document.  `_id` is the store-native identity,
modelled as its 24-hex-character string form.  `BookID` is the
schema-backed human-readable code (alias `bookID` in application code);
`bookID` is a raw legacy camelCase field that only raw query/update
documents can see.  Copy counts are the schema-backed `AvailableCopies` /
`TotalCopies` plus the raw legacy `availableCopies` slot that the issue
operation's `$inc` touches.  `borrowers` holds member identities in
insertion order. -/
structure BookDoc where
  _id : String
  BookID : Option String := none
  bookID : Option String := none
  TotalCopies : Option Int := none
  AvailableCopies : Option Int := none
  availableCopies : Option Int := none
  borrowers : List Nat := []
deriving DecidableEq, Repr

/-- JavaScript `ObjectId.isValid`: a 12-character string or a
24-character hex string. -/
def isValidObjectIdStr (s : String) : Bool :=
  s.toList.length == 12 ||
    (s.toList.length == 24 && s.toList.all fun c =>
      c.isDigit || ('a' ≤ c && c ≤ 'f') || ('A' ≤ c && c ≤ 'F'))

/-- Match of the tail regex `^AIPSLIB0*<n>$` with the `i` flag
(bookController.js, line 84) against a stored code. -/
def tailRegexMatch (n : Nat) (s : String) : Bool :=
  match dropPre "aipslib".toList (jsToLowerList s) with
  | none => false
  | some tail =>
      if tail.isEmpty then false
      else if n == 0 then tail.all (· == '0')
      else tail.all (·.isDigit) && tail.dropWhile (· == '0') == (Nat.repr n).toList

/-- Case-insensitive exact match `^raw$` with the `i` flag against an
optional stored code field; an absent field matches nothing. -/
def ciMatch (raw : String) : Option String → Bool
  | some s => jsToLowerList s == jsToLowerList raw
  | none => false

/-- Match of an optional stored code field by the tail regex. -/
def tailMatchOpt (n : Nat) : Option String → Bool
  | some s => tailRegexMatch n s
  | none => false

/-- Embeds `findBookByParam` (bookController.js, lines 60-99): resolve a
caller-supplied token to a book by trying, in order, (1) store-native
identity when the token is a valid ObjectId, (2) exact match on the
`bookID`/`BookID` fields, (3) for an all-digits token, the zero-padded
`AIPSLIB` code and then the case-insensitive tail regex, (4)
case-insensitive exact match.  The store is the ordered list of book
documents; `find?` returns the first match, mirroring `findOne`. -/
def findBookByParam (store : List BookDoc) (idOrCode : String) : Option BookDoc :=
  let raw := jsTrim idOrCode
  let step1 :=
    if isValidObjectIdStr raw then store.find? (fun d => d._id == raw) else none
  let step2 :=
    store.find? (fun d => d.bookID == some raw || d.BookID == some raw)
  let step3 :=
    if !raw.isEmpty && raw.toList.all (·.isDigit) then
      let n := digitsVal raw
      let padded := "AIPSLIB" ++ zeroPad 6 n
      let byPadded :=
        store.find? (fun d => d.bookID == some padded || d.BookID == some padded)
      match byPadded with
      | some b => some b
      | none =>
          store.find? (fun d => tailMatchOpt n d.bookID || tailMatchOpt n d.BookID)
    else none
  let step4 :=
    store.find? (fun d => ciMatch raw d.bookID || ciMatch raw d.BookID)
  step1 <|> step2 <|> step3 <|> step4

/-- Delete the first document whose `_id` equals the given value
(`findByIdAndDelete` deletes at most one document). -/
def deleteById : List BookDoc → String → List BookDoc
  | [], _ => []
  | d :: ds, i => if d._id == i then ds else d :: deleteById ds i

/-- Embeds `deleteBook` (bookController.js, lines 264-272):
`Book.findByIdAndDelete(req.params.id)`.  The parameter is cast to an
ObjectId; a token that is not a valid ObjectId fails the cast and nothing
is deleted.  No forgiving lookup is involved. -/
def deleteBook (store : List BookDoc) (idParam : String) : List BookDoc :=
  if isValidObjectIdStr idParam then deleteById store idParam else store

/-! ## Lookup projection and issue/return operations (bookController.js) -/

/-- Total copies as `lookupBook` computes them (bookController.js, line
282): `num(book.totalCopies, book.TotalCopies, 0) ?? 0`; both document
reads go through the schema field `TotalCopies`, whose schema default
makes an absent stored field read as 0. -/
def lookupTotal (b : BookDoc) : Int := b.TotalCopies.getD 0

/-- Available copies as `lookupBook` reports them (bookController.js,
lines 283-285): `availableRaw` is the hydrated document read of
`AvailableCopies`, which the schema default turns into 0 when the stored
field is absent — so it is never `undefined`, the
`availableRaw === undefined && total > 0` fallback of line 284 is dead,
and the report is the stored value with absent reading as 0. -/
def lookupAvailable (b : BookDoc) : Int := b.AvailableCopies.getD 0

/-- Derived `canIssue` flag of the lookup projection (bookController.js,
line 300): `available > 0`. -/
def lookupCanIssue (b : BookDoc) : Bool := 0 < lookupAvailable b

/-- Available count as the issue operation's pre-check computes it
(bookController.js, lines 327-330): the hydrated read of
`AvailableCopies`, which the schema default turns into 0 when the stored
field is absent — so it is never `undefined` and the default-to-total
fallback of line 329 is dead. -/
def issueAvailable (b : BookDoc) : Int := b.AvailableCopies.getD 0

/-- Resolution of the optional `userId` of the request body against the
User collection (`User.findById`), modelled by membership in the list of
existing member identities. -/
def resolveMember (users : List Nat) (userId : Option Nat) : Option Nat :=
  match userId with
  | some u => if u ∈ users then some u else none
  | none => none

/-- Outcome of the issue operation. -/
inductive IssueResult where
  | notFound
  | noCopiesAvailable
  | success
deriving DecidableEq, Repr

/-- Embeds the atomic `findOneAndUpdate` of the issue operation
(bookController.js, lines 358-384): the filter requires the raw
`availableCopies` field or the stored `AvailableCopies` field to be
present and positive; on a match, `$inc` decrements both (creating an
absent one at -1) and `$push` appends the borrower when a member was
resolved.  Returns `none` when the filter matches no document. -/
def issueAtomic (b : BookDoc) (member : Option Nat) : Option BookDoc :=
  if 0 < b.availableCopies.getD 0 ∨ 0 < b.AvailableCopies.getD 0 then
    some { b with
      availableCopies := some (b.availableCopies.getD 0 - 1)
      AvailableCopies := some (b.AvailableCopies.getD 0 - 1)
      borrowers :=
        match member with
        | some m => b.borrowers ++ [m]
        | none => b.borrowers }
  else none

/-- Embeds `issueBook` (bookController.js, lines 309-403) on an
already-resolved book: the pre-check rejects with `noCopiesAvailable`
when the computed available count is not positive; otherwise the member
is resolved and the atomic conditional decrement runs, with a zero-match
outcome also reported as `noCopiesAvailable`.  Returns the outcome and
the resulting document. -/
def issueBookFound (b : BookDoc) (users : List Nat) (userId : Option Nat) :
    IssueResult × BookDoc :=
  if issueAvailable b ≤ 0 then (IssueResult.noCopiesAvailable, b)
  else
    match issueAtomic b (resolveMember users userId) with
    | some b2 => (IssueResult.success, b2)
    | none => (IssueResult.noCopiesAvailable, b)

/-- Concurrent issue requests interleave only at the store, and each
request's only mutation is its single atomic `findOneAndUpdate`; a run of
concurrent issues on one book is therefore the sequence of their atomic
steps in linearization order.  Returns the number of successful issues
and the final document. -/
def runIssues (b : BookDoc) : List (Option Nat) → Nat × BookDoc
  | [] => (0, b)
  | m :: ms =>
      match issueAtomic b m with
      | some b2 =>
          let r := runIssues b2 ms
          (r.1 + 1, r.2)
      | none => runIssues b ms

/-- Outcome of the return operation. -/
inductive ReturnResult where
  | allCopiesAlreadyReturned
  | success
deriving DecidableEq, Repr

/-- Embeds `returnBook` (bookController.js, lines 406-467) on an
already-resolved book: with `total` and `available` read through the
schema fields (absent reads as 0), refuse when `total > 0` and
`available >= total`; otherwise set the stored available count to
`min(available + 1, total)` when `total > 0` and to `available + 1`
otherwise, and remove one borrower entry: the supplied member's entry
when it resolves and is present, nothing when it resolves but is absent,
and the first entry (`shift`) when no member resolved. -/
def returnBookFound (b : BookDoc) (users : List Nat) (userId : Option Nat) :
    ReturnResult × BookDoc :=
  let total := b.TotalCopies.getD 0
  let available := b.AvailableCopies.getD 0
  let member := resolveMember users userId
  if 0 < total ∧ total ≤ available then (ReturnResult.allCopiesAlreadyReturned, b)
  else
    let newAvailable := if 0 < total then min (available + 1) total else available + 1
    let borrowers2 :=
      if b.borrowers.isEmpty then b.borrowers
      else
        match member with
        | some u =>
            match b.borrowers.findIdx? (· == u) with
            | some i => b.borrowers.eraseIdx i
            | none => b.borrowers
        | none => b.borrowers.tail
    (ReturnResult.success,
      { b with AvailableCopies := some newAvailable, borrowers := borrowers2 })

/-- Embeds the copy-count portion of `updateBook` (bookController.js,
lines 224-250): `ft` and `fa` are the form's `totalCopies` and
`availableCopies` after `toInt` (absent or empty inputs are `none` and
their keys are deleted from the update payload).  The fallbacks
`num(book.totalCopies, book.TotalCopies)` and
`num(book.availableCopies, book.AvailableCopies)` are hydrated document
reads, which the schema defaults turn into 0 for an absent stored field
— so `newTotal` and `newAvail` are always defined: the
undefined-available min-branch of lines 230-235 is dead, the clamp
`max(0, min(newAvail, newTotal))` of lines 236-238 always runs, and both
fields are always written back. -/
def updateBookCounts (b : BookDoc) (ft fa : Option Int) : BookDoc :=
  let newTotal := ft.getD (b.TotalCopies.getD 0)
  let newAvail0 := fa.getD (b.AvailableCopies.getD 0)
  let newAvail := max 0 (min newAvail0 newTotal)
  { b with
    TotalCopies := some newTotal
    AvailableCopies := some newAvail }

/-- The copy-count invariant of the specification, read on the stored
fields with an absent field counting as 0:
`0 <= availableCopies <= totalCopies`. -/
def countInv (b : BookDoc) : Prop :=
  0 ≤ b.AvailableCopies.getD 0 ∧ b.AvailableCopies.getD 0 ≤ b.TotalCopies.getD 0

instance (b : BookDoc) : Decidable (countInv b) := by
  unfold countInv; infer_instance

/-! ## Member creation (src/controllers/userController.js) -/

/-- Character class `[\d\s-]` of the phone regex. -/
def phoneTailChar (c : Char) : Bool := c.isDigit || c.isWhitespace || c == '-'

/-- Embeds `isPhone` (userController.js, line 5): full match of
`/^(\+?\d[\d\s-]{6,})$/` — an optional leading `+`, then one digit, then
at least six characters drawn from digits, whitespace and `-`. -/
def isPhone (s : String) : Bool :=
  let cs :=
    match s.toList with
    | '+' :: rest => rest
    | cs => cs
  match cs with
  | d :: rest => d.isDigit && decide (6 ≤ rest.length) && rest.all phoneTailChar
  | [] => false

/-- Embeds `isEmail` (userController.js, lines 6-7): full match of
`/^[^\s@]+@[^\s@]+\.[^\s@]+$/` on the lowercased string — exactly one
`@`, no whitespace, a non-empty part before the `@`, and after it a dot
that is neither the first nor the last character of the domain part. -/
def isEmail (s : String) : Bool :=
  match splitOnChar '@' (jsToLowerList s) with
  | [localPart, domain] =>
      !localPart.isEmpty &&
      localPart.all (fun c => !c.isWhitespace) &&
      !domain.isEmpty &&
      domain.all (fun c => !c.isWhitespace) &&
      ((domain.drop 1).dropLast.contains '.')
  | _ => false

/-- Request body of member creation; absent form fields read as "". -/
structure MemberInput where
  fullName : String
  phone : String
  email : String
  memberType : String
  gender : String
deriving DecidableEq, Repr

/-- Outcome of member creation. -/
inductive CreateMemberResult where
  | failure (msg : String)
  | created (memberID : String) (fullName : String)
deriving DecidableEq, Repr

/-- True on the failure outcome. -/
def CreateMemberResult.isFailed : CreateMemberResult → Bool
  | failure _ => true
  | created _ _ => false

/-- The `allowedTypes` list of `createMember` (userController.js, line 33). -/
def allowedTypes : List String := ["student", "teacher", "staff", "foreigner"]

/-- The `allowedGender` list of `createMember` (userController.js, line 34). -/
def allowedGender : List String := ["male", "female", "other"]

/-- Embeds `createMember` (userController.js, lines 13-69): validate the
name, phone, email, member type and gender in that order, each failure
returning before any state is touched; on success allocate a member code
from the "AIPSMEM" counter (width 4) and persist the new member.  The
persisted collection is modelled by the list of member codes.  Returns
the outcome, the counter state and the member collection. -/
def createMember (inp : MemberInput) (st : CounterState) (users : List String) :
    CreateMemberResult × CounterState × List String :=
  if jsTrim inp.fullName = "" then
    (CreateMemberResult.failure "Name is required", st, users)
  else if inp.phone ≠ "" ∧ ¬ isPhone inp.phone then
    (CreateMemberResult.failure "Invalid phone number", st, users)
  else if inp.email ≠ "" ∧ ¬ isEmail inp.email then
    (CreateMemberResult.failure "Invalid email", st, users)
  else if inp.memberType ∉ allowedTypes then
    (CreateMemberResult.failure "Invalid member type", st, users)
  else if inp.gender ∉ allowedGender then
    (CreateMemberResult.failure "Invalid gender", st, users)
  else
    let r := getNextSequence st "AIPSMEM" 4
    (CreateMemberResult.created r.1 (jsTrim inp.fullName), r.2, users ++ [r.1])

/-! ## Concrete documents and inputs used in instantiations -/

/-- Stored book with the human-readable code "AIPSLIB000042" and a
store-native identity. -/
def bookFortyTwo : BookDoc :=
  { _id := "507f1f77bcf86cd799439011", BookID := some "AIPSLIB000042" }

/-- Book with a recorded total of 0 and no copies out. -/
def zeroTotalBook : BookDoc :=
  { _id := "507f1f77bcf86cd799439012", TotalCopies := some 0,
    AvailableCopies := some 0 }

/-- Book with every copy issued and one recorded borrower. -/
def oneBorrowerBook : BookDoc :=
  { _id := "507f1f77bcf86cd799439013", TotalCopies := some 1,
    AvailableCopies := some 0, borrowers := [1] }

/-- Book with two recorded borrowers and every copy issued. -/
def twoBorrowerBook : BookDoc :=
  { _id := "507f1f77bcf86cd799439014", TotalCopies := some 2,
    AvailableCopies := some 0, borrowers := [5, 6] }

/-- Book with three copies, all available. -/
def threeOfThreeBook : BookDoc :=
  { _id := "507f1f77bcf86cd799439015", TotalCopies := some 3,
    AvailableCopies := some 3 }

/-- Book with two copies, both available. -/
def twoOfTwoBook : BookDoc :=
  { _id := "507f1f77bcf86cd799439016", TotalCopies := some 2,
    AvailableCopies := some 2 }

/-- Book with five copies, none available. -/
def noneOfFiveBook : BookDoc :=
  { _id := "507f1f77bcf86cd799439017", TotalCopies := some 5,
    AvailableCopies := some 0 }

/-- Book with three copies, one available. -/
def oneOfThreeBook : BookDoc :=
  { _id := "507f1f77bcf86cd799439018", TotalCopies := some 3,
    AvailableCopies := some 1 }

/-- Legacy book whose stored available-copies field is absent. -/
def absentAvailableBook : BookDoc :=
  { _id := "507f1f77bcf86cd799439019", TotalCopies := some 4 }

/-- Member-creation input whose member type is "robot". -/
def robotInput : MemberInput :=
  { fullName := "Alice", phone := "", email := "", memberType := "robot",
    gender := "male" }

/-! ## Helper lemmas -/

theorem getNextSequence_fst (st : CounterState) (pfx : String) (width : Nat) :
    (getNextSequence st pfx width).1 = pfx ++ zeroPad width ((st pfx).getD 0 + 1) := rfl

theorem getNextSequence_snd_self (st : CounterState) (pfx : String) (width : Nat) :
    (getNextSequence st pfx width).2 pfx = some ((st pfx).getD 0 + 1) := by
  simp [getNextSequence]

theorem counterAfter_self (st : CounterState) (pfx : String) (width n : Nat) :
    (counterAfter st pfx width n) pfx = if n = 0 then st pfx else some ((st pfx).getD 0 + n) := by
  induction n generalizing st with
  | zero => simp [counterAfter]
  | succ m ih =>
      rw [counterAfter, ih]
      by_cases hm : m = 0
      · simp [hm, getNextSequence_snd_self]
      · simp only [hm, if_false, Nat.succ_ne_zero, getNextSequence_snd_self]
        simp [Option.getD]
        omega

theorem counterAfter_getD (st : CounterState) (pfx : String) (width n : Nat) :
    ((counterAfter st pfx width n) pfx).getD 0 = (st pfx).getD 0 + n := by
  rw [counterAfter_self]
  by_cases h : n = 0 <;> simp [h]

theorem allocTrace_eq_map (st : CounterState) (pfx : String) (width n : Nat) :
    allocTrace st pfx width n =
      (List.range n).map (fun i => pfx ++ zeroPad width ((st pfx).getD 0 + i + 1)) := by
  induction n generalizing st with
  | zero => simp [allocTrace]
  | succ m ih =>
      rw [allocTrace, ih, List.range_succ_eq_map]
      simp only [List.map_cons, List.map_map, getNextSequence_fst, getNextSequence_snd_self]
      congr 1
      apply List.map_congr_left
      intro i _
      simp only [Function.comp, Option.getD_some]
      congr 2
      omega

theorem mem_deleteById (store : List BookDoc) (token : String) (b : BookDoc)
    (hb : b ∈ store) (hne : b._id ≠ token) : b ∈ deleteById store token := by
  induction store with
  | nil => cases hb
  | cons d ds ih =>
      rw [deleteById]
      rcases List.mem_cons.mp hb with h | h
      · subst h
        rw [if_neg (by simpa using hne)]
        exact List.mem_cons_self _ _
      · by_cases hd : d._id == token
        · rw [if_pos hd]; exact h
        · rw [if_neg hd]; exact List.mem_cons_of_mem _ (ih h)

theorem eraseIdx_findIdx_eq_erase (l : List Nat) (u : Nat) :
    (match l.findIdx? (· == u) with
     | some i => l.eraseIdx i
     | none => l) = l.erase u := by
  induction l with
  | nil => rfl
  | cons a l ih =>
      by_cases h : a = u
      · subst h
        simp [List.findIdx?_cons, List.erase_cons_head]
      · rw [List.findIdx?_cons]
        simp only [beq_iff_eq, h, if_false, decide_eq_true_eq]
        rw [List.findIdx?_succ]
        rw [List.erase_cons_tail (by simpa using h)]
        cases hfi : l.findIdx? (· == u) with
        | none =>
            rw [hfi] at ih
            have ih2 : l = l.erase u := ih
            show a :: l = a :: l.erase u
            rw [← ih2]
        | some i =>
            rw [hfi] at ih
            have ih2 : l.eraseIdx i = l.erase u := ih
            show a :: l.eraseIdx i = a :: l.erase u
            rw [ih2]

/-! ## Claim theorems -/

/-- C2: for every counter state, namespace and width, one allocation
stores and uses a sequence exactly one above the previous one (an absent
counter counting as 0) and returns the namespace followed by the
width-padded new sequence; a fresh namespace therefore yields the padded
"1"; after any run of allocations the counter value has grown by the run
length, the i-th identifier of a run carries the strictly increasing
sequence number base + i + 1, and two consecutive member-code
allocations from a fresh state return "AIPSMEM0001" then "AIPSMEM0002". -/
theorem c2_alloc_correct (st : CounterState) (ns : String) (w n : Nat) :
    ((getNextSequence st ns w).1 = ns ++ zeroPad w ((st ns).getD 0 + 1)
      ∧ (getNextSequence st ns w).2 ns = some ((st ns).getD 0 + 1))
    ∧ (st ns = none → (getNextSequence st ns w).1 = ns ++ zeroPad w 1)
    ∧ ((counterAfter st ns w n) ns).getD 0 = (st ns).getD 0 + n
    ∧ allocTrace st ns w n =
        (List.range n).map (fun i => ns ++ zeroPad w ((st ns).getD 0 + i + 1))
    ∧ allocTrace emptyCounters "AIPSMEM" 4 2 = ["AIPSMEM0001", "AIPSMEM0002"] := by
  refine ⟨⟨getNextSequence_fst st ns w, getNextSequence_snd_self st ns w⟩,
    fun h => ?_, counterAfter_getD st ns w n, allocTrace_eq_map st ns w n, by decide⟩
  rw [getNextSequence_fst, h]
  rfl

/-- C2 witness: the theorem instantiated on the empty counter state. -/
theorem c2_alloc_witness :
    allocTrace emptyCounters "AIPSMEM" 4 2 = ["AIPSMEM0001", "AIPSMEM0002"] ∧
    (getNextSequence emptyCounters "AIPSLIB" 6).1 = "AIPSLIB" ++ zeroPad 6 1 :=
  ⟨(c2_alloc_correct emptyCounters "AIPSMEM" 4 2).2.2.2.2,
   (c2_alloc_correct emptyCounters "AIPSLIB" 6 0).2.1 rfl⟩

/-- C3: issuing a book whose stored available count is 0 returns
`noCopiesAvailable` from the pre-check and leaves the document — count
and borrower list — untouched, whatever the total and whoever the
requesting member is. -/
theorem c3_issue_zero_available_no_mutation (b : BookDoc) (users : List Nat)
    (userId : Option Nat) (h : b.AvailableCopies = some 0) :
    issueBookFound b users userId = (IssueResult.noCopiesAvailable, b) := by
  unfold issueBookFound issueAvailable
  rw [h]
  simp

/-- C3 witness: a book with five copies, none available, and a member
supplied. -/
theorem c3_issue_zero_witness :
    issueBookFound noneOfFiveBook [7] (some 7) =
      (IssueResult.noCopiesAvailable, noneOfFiveBook) :=
  c3_issue_zero_available_no_mutation noneOfFiveBook [7] (some 7) rfl

/-- C5: for every found book, the return operation refuses with
`allCopiesAlreadyReturned` and no mutation when the total is positive
and the available count has reached it; otherwise it succeeds, setting
the stored available count to `min(available + 1, total)` when the total
is positive and to `available + 1` — uncapped — when the total is 0. -/
theorem c5_return_count_behavior (b : BookDoc) (users : List Nat)
    (userId : Option Nat) :
    (0 < b.TotalCopies.getD 0 → b.TotalCopies.getD 0 ≤ b.AvailableCopies.getD 0 →
        returnBookFound b users userId = (ReturnResult.allCopiesAlreadyReturned, b))
    ∧ (0 < b.TotalCopies.getD 0 → b.AvailableCopies.getD 0 < b.TotalCopies.getD 0 →
        (returnBookFound b users userId).1 = ReturnResult.success ∧
        (returnBookFound b users userId).2.AvailableCopies =
          some (min (b.AvailableCopies.getD 0 + 1) (b.TotalCopies.getD 0)))
    ∧ (b.TotalCopies.getD 0 = 0 →
        (returnBookFound b users userId).1 = ReturnResult.success ∧
        (returnBookFound b users userId).2.AvailableCopies =
          some (b.AvailableCopies.getD 0 + 1)) := by
  refine ⟨fun h1 h2 => ?_, fun h1 h2 => ?_, fun h0 => ?_⟩
  · unfold returnBookFound
    rw [if_pos ⟨h1, h2⟩]
  · unfold returnBookFound
    rw [if_neg (by omega), if_pos h1]
    exact ⟨rfl, rfl⟩
  · unfold returnBookFound
    rw [if_neg (by omega), if_neg (by omega)]
    exact ⟨rfl, rfl⟩

/-- C5 witness: returning a book whose copies are all in (total 2,
available 2) is refused without mutation. -/
theorem c5_return_count_witness :
    returnBookFound twoOfTwoBook [] none =
      (ReturnResult.allCopiesAlreadyReturned, twoOfTwoBook) :=
  (c5_return_count_behavior twoOfTwoBook [] none).1 (by decide) (by decide)

/-- C6: for the stored book with code "AIPSLIB000042", lookup resolution
— the priority chain native identity, exact code, padded code then tail
regex for digit tokens, case-insensitive code — maps each of the tokens
"42", "000042", "aipslib000042" and the book's store-native identity to
that book, and a token that no strategy matches resolves to null. -/
theorem c6_lookup_resolution :
    findBookByParam [bookFortyTwo] "42" = some bookFortyTwo ∧
    findBookByParam [bookFortyTwo] "000042" = some bookFortyTwo ∧
    findBookByParam [bookFortyTwo] "aipslib000042" = some bookFortyTwo ∧
    findBookByParam [bookFortyTwo] "507f1f77bcf86cd799439011" = some bookFortyTwo ∧
    findBookByParam [bookFortyTwo] "nomatch" = none := by
  refine ⟨?_, ?_, ?_, ?_, ?_⟩ <;> rfl

/-- C9 (counterexample): `absentAvailableBook` has no stored
available-copies field and a total of 4 > 0, yet the hydrated read
applies the schema default 0: the lookup projection reports
`available = 0` — not the total — and `canIssue = false`, and the issue
operation reports `noCopiesAvailable` with no mutation, contradicting
the claimed fully-available treatment. -/
theorem c9_absent_available_counterexample :
    absentAvailableBook.AvailableCopies = none ∧
    0 < absentAvailableBook.TotalCopies.getD 0 ∧
    lookupAvailable absentAvailableBook = 0 ∧
    lookupAvailable absentAvailableBook ≠ lookupTotal absentAvailableBook ∧
    lookupCanIssue absentAvailableBook = false ∧
    issueBookFound absentAvailableBook [] none =
      (IssueResult.noCopiesAvailable, absentAvailableBook) := by
  exact ⟨rfl, by decide, rfl, by decide, rfl, rfl⟩

/-- C9 (amended): for every book whose stored available-copies field is
absent while its total is positive, the schema default 0 applies to the
hydrated read, so the public interface treats the book as having zero
available copies: the lookup projection reports `available = 0` and
`canIssue = false`, the issue operation's pre-check value is 0, and the
issue operation reports `noCopiesAvailable` with no mutation. -/
theorem c9_absent_available_reads_zero (b : BookDoc) (users : List Nat)
    (userId : Option Nat) (ha : b.AvailableCopies = none)
    (_ht : 0 < b.TotalCopies.getD 0) :
    lookupAvailable b = 0 ∧ lookupCanIssue b = false ∧
    issueAvailable b = 0 ∧
    issueBookFound b users userId = (IssueResult.noCopiesAvailable, b) := by
  have hLA : lookupAvailable b = 0 := by
    unfold lookupAvailable
    rw [ha]
    rfl
  have hIA : issueAvailable b = 0 := by
    unfold issueAvailable
    rw [ha]
    rfl
  refine ⟨hLA, ?_, hIA, ?_⟩
  · unfold lookupCanIssue
    rw [hLA]
    rfl
  · unfold issueBookFound
    rw [if_pos (by rw [hIA])]

/-- C9 witness: the amended theorem on the legacy book with four total
copies and no stored available-copies field, with a member supplied. -/
theorem c9_absent_available_witness :
    lookupAvailable absentAvailableBook = 0 ∧
    lookupCanIssue absentAvailableBook = false ∧
    issueAvailable absentAvailableBook = 0 ∧
    issueBookFound absentAvailableBook [7] (some 7) =
      (IssueResult.noCopiesAvailable, absentAvailableBook) :=
  c9_absent_available_reads_zero absentAvailableBook [7] (some 7) rfl (by decide)

/-- C10: the delete operation resolves its parameter only as a
store-native identity: a stored book survives deletion under every token
different from its own `_id` — in particular under its human-readable
code — and a token that is not even a valid ObjectId leaves the store
unchanged. -/
theorem c10_delete_native_only (store : List BookDoc) (token : String) :
    (∀ b ∈ store, b._id ≠ token → b ∈ deleteBook store token) ∧
    (isValidObjectIdStr token = false → deleteBook store token = store) := by
  constructor
  · intro b hb hne
    unfold deleteBook
    split
    · exact mem_deleteById store token b hb hne
    · exact hb
  · intro h
    unfold deleteBook
    rw [h]
    rfl

/-- C10 witness: invoking delete with the book's code "AIPSLIB000042"
(not its native identity) leaves the book in the store. -/
theorem c10_delete_witness :
    bookFortyTwo ∈ deleteBook [bookFortyTwo] "AIPSLIB000042" :=
  (c10_delete_native_only [bookFortyTwo] "AIPSLIB000042").1 bookFortyTwo
    (by decide) (by decide)

/-- C8: member creation rejects, before any mutation, an input with an
empty (trimmed) name, a non-empty invalid phone, a non-empty invalid
email, a member type outside {student, teacher, staff, foreigner} (such
as "robot"), or a gender outside {male, female, other}: the outcome is a
validation failure, the counter state — including the "AIPSMEM" sequence
— is unchanged, and no member document is persisted. -/
theorem c8_validation_no_mutation (inp : MemberInput) (st : CounterState)
    (users : List String)
    (h : jsTrim inp.fullName = ""
       ∨ (inp.phone ≠ "" ∧ isPhone inp.phone = false)
       ∨ (inp.email ≠ "" ∧ isEmail inp.email = false)
       ∨ inp.memberType ∉ allowedTypes
       ∨ inp.gender ∉ allowedGender) :
    (createMember inp st users).1.isFailed = true ∧
    (createMember inp st users).2.1 = st ∧
    (createMember inp st users).2.2 = users := by
  unfold createMember
  split_ifs with h1 h2 h3 h4 h5
  all_goals try exact ⟨rfl, rfl, rfl⟩
  exfalso
  rcases h with h | h | h | h | h
  · exact h1 h
  · exact h2 ⟨h.1, by simp [h.2]⟩
  · exact h3 ⟨h.1, by simp [h.2]⟩
  · exact h h4
  · exact h h5

/-- C8 witness: creating a member with member type "robot" fails and
mutates nothing. -/
theorem c8_validation_witness :
    (createMember robotInput emptyCounters []).1.isFailed = true ∧
    (createMember robotInput emptyCounters []).2.1 = emptyCounters ∧
    (createMember robotInput emptyCounters []).2.2 = ([] : List String) :=
  c8_validation_no_mutation robotInput emptyCounters []
    (Or.inr (Or.inr (Or.inr (Or.inl (by decide)))))

/-- C1 (counterexample): two concrete violations of the claimed
preservation of `0 <= availableCopies <= totalCopies`.  First, return on
the book with `totalCopies = 0` and `availableCopies = 0` — a state
satisfying the invariant — succeeds and leaves
`availableCopies = 1 > 0 = totalCopies` (the uncapped legacy path of
bookController.js, line 441).  Second, update on a book satisfying the
invariant (total 3, available 1) with a submitted total of -5 writes
`totalCopies = -5` and the clamped `availableCopies = 0 > -5`, violating
the invariant again (the clamp of lines 236-238 floors the available
count at 0 but nothing rejects a negative total). -/
theorem c1_invariant_violations :
    (countInv zeroTotalBook ∧
     (returnBookFound zeroTotalBook [] none).1 = ReturnResult.success ∧
     (returnBookFound zeroTotalBook [] none).2.AvailableCopies = some 1 ∧
     (returnBookFound zeroTotalBook [] none).2.TotalCopies = some 0 ∧
     ¬ countInv (returnBookFound zeroTotalBook [] none).2) ∧
    (countInv oneOfThreeBook ∧
     (updateBookCounts oneOfThreeBook (some (-5)) none).TotalCopies = some (-5) ∧
     (updateBookCounts oneOfThreeBook (some (-5)) none).AvailableCopies = some 0 ∧
     ¬ countInv (updateBookCounts oneOfThreeBook (some (-5)) none)) := by
  exact ⟨⟨by decide, rfl, by decide, by decide, by decide⟩,
         ⟨by decide, by decide, by decide, by decide⟩⟩

/-- C1 (amended): on a book satisfying
`0 <= availableCopies <= totalCopies` (stored fields read through the
schema default, absent as 0), the copy-count invariant is preserved by
issue unconditionally, by return whenever `totalCopies > 0`, and by
update whenever the submitted total (if any) is non-negative.  The two
exceptions the counterexample exhibits are exactly the carved-out cases:
the return path for `totalCopies = 0` increments without cap, and an
update submitting a negative total drives the total below the clamped
available count. -/
theorem c1_copy_invariant_preserved_amended (b : BookDoc) (users : List Nat)
    (userId : Option Nat) (ft fa : Option Int) (hinv : countInv b)
    (hft : ∀ x, ft = some x → 0 ≤ x) :
    countInv (issueBookFound b users userId).2
    ∧ (0 < b.TotalCopies.getD 0 → countInv (returnBookFound b users userId).2)
    ∧ countInv (updateBookCounts b ft fa) := by
  obtain ⟨hge, hle⟩ := hinv
  refine ⟨?_, fun ht => ?_, ?_⟩
  · unfold issueBookFound
    by_cases hpre : issueAvailable b ≤ 0
    · rw [if_pos hpre]
      exact ⟨hge, hle⟩
    · rw [if_neg hpre]
      have ha : 0 < b.AvailableCopies.getD 0 := by
        unfold issueAvailable at hpre
        omega
      unfold issueAtomic
      rw [if_pos (Or.inr ha)]
      unfold countInv
      dsimp only
      simp only [Option.getD_some]
      omega
  · unfold returnBookFound
    by_cases hguard : 0 < b.TotalCopies.getD 0 ∧
        b.TotalCopies.getD 0 ≤ b.AvailableCopies.getD 0
    · rw [if_pos hguard]
      exact ⟨hge, hle⟩
    · rw [if_neg hguard]
      unfold countInv
      simp only [Option.getD_some, if_pos ht]
      omega
  · have hnt : 0 ≤ ft.getD (b.TotalCopies.getD 0) := by
      cases hftc : ft with
      | some x => simpa using hft x hftc
      | none =>
          have h0 : (0 : Int) ≤ b.TotalCopies.getD 0 := by omega
          simpa using h0
    simp only [updateBookCounts, countInv, Option.getD_some]
    omega

/-- C1 witness: the amended theorem instantiated on a book with three
total copies and one available, updated with a submitted total of 1. -/
theorem c1_copy_invariant_witness :
    countInv (issueBookFound oneOfThreeBook [] none).2 ∧
    countInv (returnBookFound oneOfThreeBook [] none).2 ∧
    countInv (updateBookCounts oneOfThreeBook (some 1) none) :=
  ⟨(c1_copy_invariant_preserved_amended oneOfThreeBook [] none (some 1) none
      (by decide) (fun x hx => by injection hx with h; omega)).1,
   (c1_copy_invariant_preserved_amended oneOfThreeBook [] none (some 1) none
      (by decide) (fun x hx => by injection hx with h; omega)).2.1 (by decide),
   (c1_copy_invariant_preserved_amended oneOfThreeBook [] none (some 1) none
      (by decide) (fun x hx => by injection hx with h; omega)).2.2⟩

/-- C4: the issue operation's availability check and decrement are the
single atomic conditional update `issueAtomic`; consequently, on a book
whose stored available count is `k >= 0` (and whose raw legacy camelCase
field is absent or non-positive), any linearized run of concurrent issue
attempts produces exactly `min(n, k)` successes for `n` attempts, leaves
the stored count at `k - min(n, k) >= 0` — never negative — and once at
least `k` attempts have run, exactly `k` succeed, every further attempt
fails, and the count rests at exactly 0. -/
theorem c4_concurrent_issues_bounded (ms : List (Option Nat)) (b : BookDoc)
    (k : Int) (hA : b.AvailableCopies = some k) (hk : 0 ≤ k)
    (hj : b.availableCopies.getD 0 ≤ 0) :
    (runIssues b ms).1 = min ms.length k.toNat
    ∧ (runIssues b ms).2.AvailableCopies = some (k - min ms.length k.toNat)
    ∧ 0 ≤ k - (min ms.length k.toNat : Int)
    ∧ (k.toNat ≤ ms.length →
        (runIssues b ms).1 = k.toNat ∧
        (runIssues b ms).2.AvailableCopies = some 0) := by
  have main : ∀ (ms : List (Option Nat)) (b : BookDoc) (k : Int),
      b.AvailableCopies = some k → 0 ≤ k → b.availableCopies.getD 0 ≤ 0 →
      (runIssues b ms).1 = min ms.length k.toNat ∧
      (runIssues b ms).2.AvailableCopies = some (k - min ms.length k.toNat) := by
    intro ms
    induction ms with
    | nil =>
        intro b k hA hk hj
        simp [runIssues, hA]
    | cons m ms ih =>
        intro b k hA hk hj
        unfold runIssues issueAtomic
        by_cases hpos : 0 < k
        · rw [if_pos (Or.inr (by rw [hA]; simpa using hpos))]
          dsimp only
          obtain ⟨ih1, ih2⟩ := ih
            { b with
                availableCopies := some (b.availableCopies.getD 0 - 1)
                AvailableCopies := some (b.AvailableCopies.getD 0 - 1)
                borrowers := match m with
                  | some mem => b.borrowers ++ [mem]
                  | none => b.borrowers }
            (k - 1) (by simp [hA]) (by omega) (by simp; omega)
          refine ⟨?_, ?_⟩
          · rw [ih1]
            simp only [List.length_cons]
            omega
          · rw [ih2]
            simp only [List.length_cons]
            congr 1
            omega
        · have hk0 : k = 0 := by omega
          rw [if_neg (by rw [hA]; simp; omega)]
          obtain ⟨ih1, ih2⟩ := ih b k hA hk hj
          refine ⟨?_, ?_⟩
          · rw [ih1]
            simp only [List.length_cons]
            omega
          · rw [ih2]
            simp only [List.length_cons]
            congr 1
            omega
  obtain ⟨h1, h2⟩ := main ms b k hA hk hj
  refine ⟨h1, h2, by omega, fun hle => ⟨by rw [h1]; omega, by rw [h2]; congr 1; omega⟩⟩

/-- C4 witness: four attempts on a book with three available copies give
exactly three successes and leave the count at 0. -/
theorem c4_concurrent_issues_witness :
    (runIssues threeOfThreeBook [none, none, none, none]).1 = 3 ∧
    (runIssues threeOfThreeBook [none, none, none, none]).2.AvailableCopies = some 0 :=
  (c4_concurrent_issues_bounded [none, none, none, none] threeOfThreeBook 3
      rfl (by decide) (by decide)).2.2.2 (by decide)

/-- C7 (counterexample): returning `oneBorrowerBook` (borrower list [1],
one copy out) with member 2 supplied — an existing member that is not in
the borrower list — succeeds yet removes no borrower entry at all: the
list stays [1], where the claim says the oldest entry would be removed. -/
theorem c7_member_not_in_list_counterexample :
    (returnBookFound oneBorrowerBook [1, 2] (some 2)).1 = ReturnResult.success ∧
    oneBorrowerBook.borrowers ≠ [] ∧
    (returnBookFound oneBorrowerBook [1, 2] (some 2)).2.borrowers =
      oneBorrowerBook.borrowers ∧
    (returnBookFound oneBorrowerBook [1, 2] (some 2)).2.borrowers ≠
      oneBorrowerBook.borrowers.tail := by
  exact ⟨rfl, by decide, rfl, by decide⟩

/-- C7 (amended): on a successful return, the borrower list changes as
follows: when a member reference is supplied and resolves to an existing
member, exactly the first occurrence of that member is removed if
present — and nothing is removed if that member is not in the list
(`List.erase` semantics); when the supplied member does not resolve, or
no member is supplied, the oldest (first) entry is removed, if any. -/
theorem c7_borrower_removal_amended (b : BookDoc) (users : List Nat) (u : Nat)
    (hsucc : ¬(0 < b.TotalCopies.getD 0 ∧
        b.TotalCopies.getD 0 ≤ b.AvailableCopies.getD 0)) :
    ((returnBookFound b users (some u)).1 = ReturnResult.success
      ∧ (u ∈ users →
          (returnBookFound b users (some u)).2.borrowers = b.borrowers.erase u)
      ∧ (u ∉ users →
          (returnBookFound b users (some u)).2.borrowers = b.borrowers.tail))
    ∧ (returnBookFound b users none).2.borrowers = b.borrowers.tail := by
  refine ⟨⟨?_, fun hu => ?_, fun hu => ?_⟩, ?_⟩
  · unfold returnBookFound
    rw [if_neg hsucc]
  · have hres : resolveMember users (some u) = some u := by
      unfold resolveMember
      dsimp only
      rw [if_pos hu]
    unfold returnBookFound
    rw [if_neg hsucc]
    dsimp only
    rw [hres]
    cases hbor : b.borrowers with
    | nil => simp
    | cons x xs =>
        rw [if_neg (by simp)]
        exact eraseIdx_findIdx_eq_erase (x :: xs) u
  · have hres : resolveMember users (some u) = none := by
      unfold resolveMember
      dsimp only
      rw [if_neg hu]
    unfold returnBookFound
    rw [if_neg hsucc]
    dsimp only
    rw [hres]
    cases hbor : b.borrowers with
    | nil => simp
    | cons x xs => rw [if_neg (by simp)]
  · unfold returnBookFound
    rw [if_neg hsucc]
    dsimp only
    rw [show resolveMember users none = none from rfl]
    cases hbor : b.borrowers with
    | nil => simp
    | cons x xs => rw [if_neg (by simp)]

/-- C7 witness: the amended theorem on `twoBorrowerBook` (borrowers
[5, 6]) with resolving member 6 supplied: the return succeeds and
exactly that entry is removed. -/
theorem c7_borrower_removal_witness :
    (returnBookFound twoBorrowerBook [6] (some 6)).1 = ReturnResult.success ∧
    (returnBookFound twoBorrowerBook [6] (some 6)).2.borrowers = [5] := by
  have h := c7_borrower_removal_amended twoBorrowerBook [6] 6 (by decide)
  refine ⟨h.1.1, ?_⟩
  have h2 := h.1.2.1 (by decide)
  simpa using h2
